import Mathlib

/-!
Shallow embedding of `src/composer/callbacks/mlperf.py`.

The file models the `MLPerfCallback` class: its constructor, the lifecycle
hooks (`init`, `fit_start`, `epoch_start`, `epoch_end`, `eval_start`,
`eval_end`, `close`), the helper `get_system_description`, and the path
construction done with `os.path.join`.

Modelling conventions:
* each hook is a pure function from the callback state, the trainer state
  and an environment (ranks, world size, file-system observations) to a
  `HookResult`: the list of side effects performed in order, the callback
  state after the call (Python object mutations persist even when an
  exception is raised), and the raised exception, if any;
* the external `mllogger`, the file system, `subprocess` and `dist` are
  opaque collaborators: calls to them are recorded as `Effect`s;
* Python floats appear only in the accuracy/target comparison, where the
  code does no arithmetic on them; they are modelled as `ℚ`;
* `os.path.join` (posix) is modelled by `ospJoin`.
-/

namespace MLPerf

/-- Python exceptions raised by the module. -/
inductive PyError where
  | typeError (msg : String)
  | valueError (msg : String)
  | fileExistsError (msg : String)
  | importError (msg : String)
  | indexError
  | keyError
  deriving DecidableEq, Repr

/-- The mllog events emitted by the callback (key plus the payload used). -/
inductive LogEvent where
  | cacheClear
  | initStart
  | submissionBenchmark (v : String)
  | submissionDivision (v : String)
  | submissionOrg (v : String)
  | submissionPlatform (v : String)
  | submissionStatus (v : String)
  | seed (v : ℤ)
  | globalBatchSize (v : ℕ)
  | gradAccumSteps (v : ℕ)
  | trainSamples (v : ℕ)
  | evalSamples (v : ℕ)
  | initStop
  | runStart
  | epochStart (epochNum : ℕ)
  | blockStart (firstEpochNum : ℕ) (epochCount : ℕ)
  | epochStop (epochNum : ℕ)
  | evalStart (epochNum : ℕ)
  | evalStop (epochNum : ℕ)
  | evalAccuracy (value : ℚ) (epochNum : ℕ)
  | blockStop (firstEpochNum : ℕ)
  | runStop (status : String)
  deriving DecidableEq, Repr

/-- Values stored in the system-description dictionary. -/
inductive DescVal where
  | str (s : String)
  | num (q : ℚ)
  | dict (entries : List (String × String))
  deriving DecidableEq, Repr

/-- Side effects performed by the hooks, in program order. -/
inductive Effect where
  | makeDirs (path : String)
  | writeSystemsFile (path : String) (desc : List (String × DescVal))
  | barrier
  | addFileHandler (filename : String)
  | runCmd (cmd : List String)
  | logStart (e : LogEvent)
  | logEvent (e : LogEvent)
  | fileArtifact (artifactName : String) (filePath : String)
  | removeHandler (h : Option String)
  | closeFileHandler (filename : String)
  | warn (msg : String)
  deriving DecidableEq, Repr

/-- Results of the system-introspection calls (`dist`, `torch.cuda`,
`cpuinfo`, `psutil`, `platform`, version strings): opaque collaborators
read for their return values only. -/
structure SysEnv where
  worldSize : ℕ
  localWorldSize : ℕ
  isCuda : Bool
  cudaDeviceName : String
  cpuBrandRaw : Option String
  cpuCountPhysical : ℕ
  torchVersion : String
  composerVersion : String
  cudaVersion : String
  pythonVersion : String
  platformSystem : String
  platformRelease : String
  deriving DecidableEq, Repr

/-- `s` starts with the character `/`. -/
def strStartsWithSlash (s : String) : Bool :=
  s.data.head? = some (Char.ofNat 47)

/-- `s` ends with the character `/`. -/
def strEndsWithSlash (s : String) : Bool :=
  s.data.getLast? = some (Char.ofNat 47)

/-- Posix `os.path.join` for two components (the forms used in the module:
the second component is never empty). -/
def ospJoin (a b : String) : String :=
  if strStartsWithSlash b then b
  else if a = "" ∨ strEndsWithSlash a then a ++ b
  else a ++ "/" ++ b

/-- Read a string entry of the system-description dictionary. -/
def descStr (v : Option DescVal) : String :=
  match v with
  | some (DescVal.str s) => s
  | _ => ""

/-- Python `s.replace(" ", "_")`: both pattern and replacement are single
characters, so it is the character map sending each space to an
underscore. -/
def replaceSpaces (s : String) : String :=
  String.mk (s.data.map (fun c => if c = ' ' then '_' else c))

/-- `get_system_description` (lines 298-378): builds the dictionary in
source order; the `system_name` key is assigned last, hence appended. -/
def get_system_description (submitter division status : String)
    (system_name : Option String) (env : SysEnv) : List (String × DescVal) :=
  let is_cuda := env.isCuda
  let base : List (String × DescVal) := [
    ("submitter", DescVal.str submitter),
    ("division", DescVal.str division),
    ("status", DescVal.str status),
    ("number_of_nodes", DescVal.num ((env.worldSize : ℚ) / (env.localWorldSize : ℚ))),
    ("host_processors_per_node", DescVal.str ""),
    ("host_processor_model_name", DescVal.str (env.cpuBrandRaw.getD "CPU")),
    ("host_processor_core_count", DescVal.str (toString env.cpuCountPhysical)),
    ("host_processor_vcpu_count", DescVal.str ""),
    ("host_processor_frequency", DescVal.str ""),
    ("host_processor_caches", DescVal.str ""),
    ("host_processor_interconnect", DescVal.str ""),
    ("host_memory_capacity", DescVal.str ""),
    ("host_storage_type", DescVal.str ""),
    ("host_storage_capacity", DescVal.str ""),
    ("host_networking", DescVal.str ""),
    ("host_networking_topology", DescVal.str ""),
    ("host_memory_configuration", DescVal.str ""),
    ("accelerators_per_node", DescVal.str (if is_cuda then toString env.localWorldSize else "0")),
    ("accelerator_model_name", DescVal.str (if is_cuda then env.cudaDeviceName else "")),
    ("accelerator_host_interconnect", DescVal.str ""),
    ("accelerator_frequency", DescVal.str ""),
    ("accelerator_on-chip_memories", DescVal.str ""),
    ("accelerator_memory_configuration", DescVal.str ""),
    ("accelerator_memory_capacity", DescVal.str ""),
    ("accelerator_interconnect", DescVal.str ""),
    ("accelerator_interconnect_topology", DescVal.str ""),
    ("cooling", DescVal.str ""),
    ("hw_notes", DescVal.str ""),
    ("framework", DescVal.str ("PyTorch v" ++ env.torchVersion ++ " and MosaicML composer v" ++ env.composerVersion)),
    ("other_software_stack", DescVal.dict [
      ("cuda_version", if is_cuda then env.cudaVersion else ""),
      ("composer_version", env.composerVersion),
      ("python_version", env.pythonVersion)]),
    ("operating_system", DescVal.str (env.platformSystem ++ " " ++ env.platformRelease)),
    ("sw_notes", DescVal.str "")]
  let name : String :=
    match system_name with
    | some n => n
    | none =>
      let device_name :=
        if is_cuda then descStr (List.lookup "accelerator_model_name" base)
        else descStr (List.lookup "host_processor_model_name" base)
      let device_name := replaceSpaces device_name
      toString env.worldSize ++ "x" ++ device_name ++ "_composer"
  base ++ [("system_name", DescVal.str name)]

/-- The supported benchmarks (line 31). -/
def BENCHMARKS : List String := ["resnet"]

/-- The supported divisions (line 32). -/
def DIVISIONS : List String := ["open"]

/-- The supported statuses (line 33). -/
def STATUS : List String := ["onprem", "cloud", "preview"]

/-- The instance fields assigned by `__init__` (lines 141-167). The file
handler is modelled by the name of the file it writes to. -/
structure CallbackState where
  target : ℚ
  benchmark : String
  division : String
  submitter : String
  status : String
  cache_clear_cmd : Option (List String)
  root_folder : String
  metric_name : String
  metric_label : String
  file_handler : Option String
  system_desc : List (String × DescVal)
  system_name : String
  systems_path : String
  filename : String
  upload_name : String
  system_desc_upload_name : String
  success : Bool
  deriving DecidableEq, Repr

namespace MLPerfCallback

/-- `MLPerfCallback.__init__` (lines 117-167): validation, system
description, path and upload-name construction. -/
def new (mlperf_available : Bool) (root_folder : String) (index : ℤ)
    (benchmark : String) (target : ℚ) (division : String)
    (metric_name : String) (metric_label : String) (submitter : String)
    (system_name : Option String) (status : String)
    (cache_clear_cmd : Option (List String)) (env : SysEnv) :
    Except PyError CallbackState :=
  if ¬ mlperf_available then
    Except.error (PyError.importError "mlperf logging is not installed")
  else if benchmark ∉ BENCHMARKS then
    Except.error (PyError.valueError ("benchmark: " ++ benchmark ++ " must be one of (resnet,)"))
  else if division ∉ DIVISIONS then
    Except.error (PyError.valueError ("division: " ++ division ++ " must be one of (open,)"))
  else if status ∉ STATUS then
    Except.error (PyError.valueError ("status: " ++ status ++ " must be one of (onprem, cloud, preview)"))
  else
    let system_desc := get_system_description submitter division status system_name env
    let name : String :=
      match system_name with
      | some n => n
      | none => descStr (List.lookup "system_name" system_desc)
    Except.ok {
      target := target
      benchmark := benchmark
      division := division
      submitter := submitter
      status := status
      cache_clear_cmd := cache_clear_cmd
      root_folder := root_folder
      metric_name := metric_name
      metric_label := metric_label
      file_handler := none
      system_desc := system_desc
      system_name := name
      systems_path := ospJoin (ospJoin root_folder "systems") (name ++ ".json")
      filename := ospJoin (ospJoin (ospJoin (ospJoin root_folder "results") name) benchmark)
        ("result_" ++ toString index ++ ".txt")
      upload_name := "\x7brun_name\x7d" ++ "/results/" ++ name ++ "/" ++ benchmark
        ++ "/result_" ++ toString index ++ ".txt"
      system_desc_upload_name := "\x7brun_name\x7d" ++ "/systems/" ++ name ++ ".json"
      success := false }

end MLPerfCallback

/-- The per-call environment of a hook: process ranks, world size, and the
file-system observation made by `init` after the barrier. -/
structure HookEnv where
  globalRank : ℕ
  localRank : ℕ
  worldSize : ℕ
  fileExists : Bool
  deriving DecidableEq, Repr

/-- Outcome of one hook call: effects performed in order, the callback
state after the call, and the exception raised, if any. -/
structure HookResult where
  effects : List Effect
  final : CallbackState
  err : Option PyError
  deriving DecidableEq, Repr

/-- The torch `DataLoader` object reached by the hooks, with the facts the
checks inspect: whether it is a torch `DataLoader`, its `batch_size`, and
whether its `dataset` is `Sized` (and its length when it is). -/
structure DataLoaderObj where
  isTorchDataLoader : Bool
  batch_size : Option ℕ
  datasetSized : Bool
  datasetLen : ℕ
  deriving DecidableEq, Repr

/-- The `evaluator.dataloader` wrapper (a `DataSpec` holding the torch
dataloader in its own `dataloader` field). -/
structure DataSpec where
  dataloader : DataLoaderObj
  deriving DecidableEq, Repr

/-- One entry of `state.evaluators`. -/
structure Evaluator where
  dataloader : DataSpec
  deriving DecidableEq, Repr

/-- The slice of the trainer `State` read by the hooks. `current_metrics`
is the nested dictionary `state.current_metrics[label][name]`. -/
structure TrainerState where
  train_dataloader : DataLoaderObj
  evaluators : List Evaluator
  seed : ℤ
  grad_accum : ℕ
  epoch : ℕ
  current_metrics : List (String × List (String × ℚ))
  deriving DecidableEq, Repr

/-- `rank_zero` (lines 36-37). -/
def rank_zero (env : HookEnv) : Bool :=
  env.globalRank = 0

namespace MLPerfCallback

/-- `_create_submission_folders` (lines 207-218), as the list of
`os.makedirs` calls it performs, in order. -/
def create_submission_folders (root_folder system_name benchmark : String) :
    List Effect :=
  let results_folder := ospJoin root_folder "results"
  let log_folder := ospJoin (ospJoin root_folder "results") system_name
  let benchmark_folder := ospJoin log_folder benchmark
  let systems_folder := ospJoin root_folder "systems"
  [Effect.makeDirs root_folder, Effect.makeDirs results_folder,
   Effect.makeDirs log_folder, Effect.makeDirs benchmark_folder,
   Effect.makeDirs systems_folder]

/-- `MLPerfCallback.init` (lines 169-205): folder creation and systems
file write on local rank zero, barrier, file-existence check, file handler
attachment, cache clear, INIT_START, then the submission metadata and the
systems-file upload on global rank zero. -/
def init (cb : CallbackState) (env : HookEnv) : HookResult :=
  let pre : List Effect :=
    (if env.localRank = 0 then
      create_submission_folders cb.root_folder cb.system_name cb.benchmark
        ++ [Effect.writeSystemsFile cb.systems_path cb.system_desc]
    else []) ++ [Effect.barrier]
  if env.fileExists then
    { effects := pre, final := cb,
      err := some (PyError.fileExistsError (cb.filename ++ " already exists.")) }
  else
    { effects := pre ++ [Effect.addFileHandler cb.filename]
        ++ (match cb.cache_clear_cmd with
            | some cmd => [Effect.runCmd cmd, Effect.logStart LogEvent.cacheClear]
            | none => [Effect.warn "cache_clear_cmd was not provided. For a valid submission, please provide the command."])
        ++ [Effect.logStart LogEvent.initStart]
        ++ (if rank_zero env then
              [Effect.logEvent (LogEvent.submissionBenchmark cb.benchmark),
               Effect.logEvent (LogEvent.submissionDivision cb.division),
               Effect.logEvent (LogEvent.submissionOrg cb.submitter),
               Effect.logEvent (LogEvent.submissionPlatform cb.system_name),
               Effect.logEvent (LogEvent.submissionStatus cb.status),
               Effect.fileArtifact cb.system_desc_upload_name cb.systems_path]
            else []),
      final := { cb with file_handler := some cb.filename },
      err := none }

/-- `MLPerfCallback.fit_start` (lines 229-258): validation checks in
source order on global rank zero, the hyperparameter events, INIT_STOP,
barrier, and RUN_START on global rank zero. -/
def fit_start (cb : CallbackState) (st : TrainerState) (env : HookEnv) :
    HookResult :=
  if rank_zero env then
    if st.train_dataloader.isTorchDataLoader = false then
      { effects := [], final := cb,
        err := some (PyError.typeError "train dataloader must be a torch dataloader") }
    else
      match st.evaluators.head? with
      | none => { effects := [], final := cb, err := some PyError.indexError }
      | some ev0 =>
        if ev0.dataloader.dataloader.isTorchDataLoader = false then
          { effects := [], final := cb,
            err := some (PyError.typeError "eval dataset must be a torch dataloader.") }
        else
          match st.train_dataloader.batch_size with
          | none =>
            { effects := [], final := cb,
              err := some (PyError.valueError "Batch size is required to be set for dataloader.") }
          | some bs =>
            if 1 < st.evaluators.length then
              { effects := [], final := cb,
                err := some (PyError.valueError "Only one evaluator is supported for the MLPerfCallback.") }
            else if st.train_dataloader.datasetSized = false then
              { effects := [], final := cb,
                err := some (PyError.typeError "Train dataset must have __len__ property") }
            else if ev0.dataloader.dataloader.datasetSized = false then
              { effects := [], final := cb,
                err := some (PyError.typeError "The eval dataset must have __len__ property") }
            else
              { effects := [Effect.logEvent (LogEvent.seed st.seed),
                  Effect.logEvent (LogEvent.globalBatchSize (bs * env.worldSize)),
                  Effect.logEvent (LogEvent.gradAccumSteps st.grad_accum),
                  Effect.logEvent (LogEvent.trainSamples st.train_dataloader.datasetLen),
                  Effect.logEvent (LogEvent.evalSamples ev0.dataloader.dataloader.datasetLen),
                  Effect.logEvent LogEvent.initStop, Effect.barrier,
                  Effect.logEvent LogEvent.runStart],
                final := cb, err := none }
  else
    { effects := [Effect.logEvent LogEvent.initStop, Effect.barrier],
      final := cb, err := none }

/-- `MLPerfCallback.epoch_start` (lines 260-267). -/
def epoch_start (cb : CallbackState) (st : TrainerState) (env : HookEnv) :
    HookResult :=
  if rank_zero env then
    { effects := [Effect.logEvent (LogEvent.epochStart st.epoch),
        Effect.logEvent (LogEvent.blockStart st.epoch 1)],
      final := cb, err := none }
  else { effects := [], final := cb, err := none }

/-- `MLPerfCallback.epoch_end` (lines 269-272). -/
def epoch_end (cb : CallbackState) (st : TrainerState) (env : HookEnv) :
    HookResult :=
  if rank_zero env then
    { effects := [Effect.logEvent (LogEvent.epochStop st.epoch),
        Effect.fileArtifact cb.upload_name cb.filename],
      final := cb, err := none }
  else { effects := [], final := cb, err := none }

/-- `MLPerfCallback.eval_start` (lines 274-276). -/
def eval_start (cb : CallbackState) (st : TrainerState) (env : HookEnv) :
    HookResult :=
  if rank_zero env then
    { effects := [Effect.logEvent (LogEvent.evalStart st.epoch)],
      final := cb, err := none }
  else { effects := [], final := cb, err := none }

/-- `MLPerfCallback.eval_end` (lines 278-291), with `_get_accuracy`
(lines 224-227) inlined at its call site: EVAL_STOP, EVAL_ACCURACY and
BLOCK_STOP, then the success-once threshold gate emitting RUN_STOP,
removing the file handler from the logger and setting the success flag. -/
def eval_end (cb : CallbackState) (st : TrainerState) (env : HookEnv) :
    HookResult :=
  if rank_zero env then
    match List.lookup cb.metric_label st.current_metrics with
    | none => { effects := [], final := cb, err := some PyError.keyError }
    | some metrics =>
      match List.lookup cb.metric_name metrics with
      | none =>
        { effects := [], final := cb,
          err := some (PyError.valueError "Accuracy must be a validation metric.") }
      | some accuracy =>
        let base : List Effect :=
          [Effect.logEvent (LogEvent.evalStop st.epoch),
           Effect.logEvent (LogEvent.evalAccuracy accuracy st.epoch),
           Effect.logEvent (LogEvent.blockStop st.epoch)]
        if cb.target < accuracy ∧ cb.success = false then
          { effects := base ++ [Effect.logEvent (LogEvent.runStop "success"),
              Effect.removeHandler cb.file_handler],
            final := { cb with success := true }, err := none }
        else { effects := base, final := cb, err := none }
  else { effects := [], final := cb, err := none }

/-- `MLPerfCallback.close` (lines 293-295). -/
def close (cb : CallbackState) : HookResult :=
  match cb.file_handler with
  | none => { effects := [], final := cb, err := none }
  | some f => { effects := [Effect.closeFileHandler f], final := cb, err := none }

end MLPerfCallback

/-- Runs `eval_end` on each trainer state in turn, threading the callback
state; an exception stops the run (it propagates out of the trainer). -/
def runEvalSeq (env : HookEnv) : CallbackState → List TrainerState →
    List (List Effect) × CallbackState
  | cb, [] => ([], cb)
  | cb, st :: rest =>
    let r := MLPerfCallback.eval_end cb st env
    match r.err with
    | some _ => ([r.effects], r.final)
    | none =>
      let t := runEvalSeq env r.final rest
      (r.effects :: t.1, t.2)

/-- A trainer state whose metrics dictionary holds accuracy `a` under the
given label and name (the shape `eval_end` reads). -/
def mkEvalState (label name : String) (a : ℚ) : TrainerState :=
  { train_dataloader :=
      { isTorchDataLoader := true, batch_size := some 1, datasetSized := true, datasetLen := 0 },
    evaluators := [], seed := 0, grad_accum := 1, epoch := 0,
    current_metrics := [(label, [(name, a)])] }

/-- The per-call effect lists of a sequence of `eval_end` calls whose
fetched accuracies are `accs`. -/
def evalEffects (cb : CallbackState) (env : HookEnv) (accs : List ℚ) :
    List (List Effect) :=
  (runEvalSeq env cb (accs.map (mkEvalState cb.metric_label cb.metric_name))).1

/-- The callback state after a sequence of `eval_end` calls whose fetched
accuracies are `accs`. -/
def evalFinal (cb : CallbackState) (env : HookEnv) (accs : List ℚ) :
    CallbackState :=
  (runEvalSeq env cb (accs.map (mkEvalState cb.metric_label cb.metric_name))).2

/-- An effect that emits a line through the mllogger. -/
def isLogged (e : Effect) : Bool :=
  match e with
  | Effect.logStart _ => true
  | Effect.logEvent _ => true
  | _ => false

/-- An effect that uploads a file artifact through the trainer logger. -/
def isFileArtifact (e : Effect) : Bool :=
  match e with
  | Effect.fileArtifact _ _ => true
  | _ => false

/-- One of the five submission-metadata events of `init`. -/
def isSubmissionMeta (e : Effect) : Bool :=
  match e with
  | Effect.logEvent (LogEvent.submissionBenchmark _) => true
  | Effect.logEvent (LogEvent.submissionDivision _) => true
  | Effect.logEvent (LogEvent.submissionOrg _) => true
  | Effect.logEvent (LogEvent.submissionPlatform _) => true
  | Effect.logEvent (LogEvent.submissionStatus _) => true
  | _ => false

/-- One of the five hyperparameter events of `fit_start`. -/
def isHyperEvent (e : Effect) : Bool :=
  match e with
  | Effect.logEvent (LogEvent.seed _) => true
  | Effect.logEvent (LogEvent.globalBatchSize _) => true
  | Effect.logEvent (LogEvent.gradAccumSteps _) => true
  | Effect.logEvent (LogEvent.trainSamples _) => true
  | Effect.logEvent (LogEvent.evalSamples _) => true
  | _ => false

/-- The raised exception, if any, is a TypeError. -/
def isTypeErr (e : Option PyError) : Bool :=
  match e with
  | some (PyError.typeError _) => true
  | _ => false

/-! ### Concrete fixtures used by the witnesses -/

/-- A dataloader passing every `fit_start` check. -/
def dlOk : DataLoaderObj :=
  { isTorchDataLoader := true, batch_size := some 32, datasetSized := true, datasetLen := 1000 }

/-- An evaluator whose inner dataloader passes every `fit_start` check. -/
def evOk : Evaluator :=
  { dataloader :=
      { dataloader :=
          { isTorchDataLoader := true, batch_size := some 16, datasetSized := true,
            datasetLen := 50 } } }

/-- A concrete callback state as left by the constructor and `init`. -/
def cbEx : CallbackState :=
  { target := 1, benchmark := "resnet", division := "open", submitter := "MosaicML",
    status := "onprem", cache_clear_cmd := none, root_folder := "sub",
    metric_name := "Accuracy", metric_label := "eval",
    file_handler := some "sub/results/sys/resnet/result_0.txt",
    system_desc := [], system_name := "sys",
    systems_path := "sub/systems/sys.json",
    filename := "sub/results/sys/resnet/result_0.txt",
    upload_name := "u", system_desc_upload_name := "v", success := false }

/-- Hook environment: global rank zero, results file absent. -/
def envR0 : HookEnv := { globalRank := 0, localRank := 0, worldSize := 8, fileExists := false }

/-- Hook environment: global rank one. -/
def envR1 : HookEnv := { globalRank := 1, localRank := 1, worldSize := 8, fileExists := false }

/-- Hook environment: global rank zero, results file already present. -/
def envExists : HookEnv := { globalRank := 0, localRank := 0, worldSize := 8, fileExists := true }

/-- A trainer state passing every `fit_start` check. -/
def stOk : TrainerState :=
  { train_dataloader := dlOk, evaluators := [evOk], seed := 42, grad_accum := 2, epoch := 3,
    current_metrics := [("eval", [("Accuracy", (0 : ℚ))])] }

/-! ### Facts about `ospJoin` on slash-free components -/

theorem data_ne_nil_of_ne_empty (s : String) (h : s ≠ "") : s.data ≠ [] :=
  fun hd => h (String.ext hd)

theorem append_ne_empty_right (a b : String) (h : b ≠ "") : a ++ b ≠ "" := by
  intro hab
  have hdata := congrArg String.data hab
  rw [String.data_append] at hdata
  exact data_ne_nil_of_ne_empty b h (List.append_eq_nil.mp hdata).2

theorem strEndsWithSlash_append (a b : String) (h : b ≠ "") :
    strEndsWithSlash (a ++ b) = strEndsWithSlash b := by
  unfold strEndsWithSlash
  rw [String.data_append,
    List.getLast?_append_of_ne_nil a.data (data_ne_nil_of_ne_empty b h)]

theorem strStartsWithSlash_append (a b : String) (h : a ≠ "") :
    strStartsWithSlash (a ++ b) = strStartsWithSlash a := by
  unfold strStartsWithSlash
  rw [String.data_append]
  cases hd : a.data with
  | nil => exact absurd hd (data_ne_nil_of_ne_empty a h)
  | cons c t => simp [hd]

theorem ospJoin_eq (a b : String) (ha : a ≠ "") (ha2 : strEndsWithSlash a = false)
    (hb : strStartsWithSlash b = false) : ospJoin a b = a ++ "/" ++ b := by
  simp [ospJoin, hb, ha, ha2]

/-! ### Claim theorems -/

/-- C10: `close` never fails on an uninitialized callback: with no file
handler it does nothing, with one it closes it; in both cases it emits no
log events, uploads nothing, raises nothing and changes no field. -/
theorem close_safe (cb : CallbackState) :
    (MLPerfCallback.close cb).err = none ∧
    (MLPerfCallback.close cb).final = cb ∧
    (MLPerfCallback.close cb).effects =
      (match cb.file_handler with
       | none => []
       | some f => [Effect.closeFileHandler f]) ∧
    (MLPerfCallback.close cb).effects.all
      (fun e => !isLogged e && !isFileArtifact e) = true := by
  cases h : cb.file_handler <;>
    simp [MLPerfCallback.close, h, isLogged, isFileArtifact]

/-- C7: the lifecycle hooks mutate only the success flag (`eval_end`) and
the file handler (`init`); every other field set by the constructor is
left unchanged by every hook. -/
theorem hooks_frame_condition (cb : CallbackState) (st : TrainerState) (env : HookEnv) :
    ((MLPerfCallback.init cb env).final = cb ∨
      (MLPerfCallback.init cb env).final = { cb with file_handler := some cb.filename }) ∧
    (MLPerfCallback.fit_start cb st env).final = cb ∧
    (MLPerfCallback.epoch_start cb st env).final = cb ∧
    (MLPerfCallback.epoch_end cb st env).final = cb ∧
    (MLPerfCallback.eval_start cb st env).final = cb ∧
    ((MLPerfCallback.eval_end cb st env).final = cb ∨
      (MLPerfCallback.eval_end cb st env).final = { cb with success := true }) ∧
    (MLPerfCallback.close cb).final = cb := by
  refine ⟨?_, ?_, ?_, ?_, ?_, ?_, ?_⟩
  · by_cases h : env.fileExists
    · exact Or.inl (by simp [MLPerfCallback.init, h])
    · exact Or.inr (by simp [MLPerfCallback.init, h])
  · unfold MLPerfCallback.fit_start
    repeat' split
    all_goals rfl
  · unfold MLPerfCallback.epoch_start
    split <;> rfl
  · unfold MLPerfCallback.epoch_end
    split <;> rfl
  · unfold MLPerfCallback.eval_start
    split <;> rfl
  · unfold MLPerfCallback.eval_end
    repeat' split
    all_goals first
      | exact Or.inl rfl
      | exact Or.inr rfl
  · unfold MLPerfCallback.close
    split <;> rfl

/-- C9: on global rank zero, when the metric name is absent from
`state.current_metrics[metric_label]`, `eval_end` raises the ValueError
before emitting anything and leaves the callback state unchanged. -/
theorem eval_end_missing_metric_error (cb : CallbackState) (st : TrainerState)
    (env : HookEnv) (metrics : List (String × ℚ))
    (hr : env.globalRank = 0)
    (hl : List.lookup cb.metric_label st.current_metrics = some metrics)
    (hm : List.lookup cb.metric_name metrics = none) :
    (MLPerfCallback.eval_end cb st env).err =
      some (PyError.valueError "Accuracy must be a validation metric.") ∧
    (MLPerfCallback.eval_end cb st env).effects = [] ∧
    (MLPerfCallback.eval_end cb st env).final = cb := by
  simp [MLPerfCallback.eval_end, rank_zero, hr, hl, hm]

/-- A trainer state whose metrics dictionary has the `eval` label but not
the `Accuracy` name. -/
def stMissing : TrainerState :=
  { train_dataloader := dlOk, evaluators := [evOk], seed := 0, grad_accum := 1, epoch := 0,
    current_metrics := [("eval", [("TopK", (0 : ℚ))])] }

/-- Witness for C9 at a concrete metrics dictionary. -/
theorem eval_end_missing_metric_error_witness :
    envR0.globalRank = 0 ∧
    List.lookup cbEx.metric_label stMissing.current_metrics = some [("TopK", (0 : ℚ))] ∧
    List.lookup cbEx.metric_name [("TopK", (0 : ℚ))] = none ∧
    ((MLPerfCallback.eval_end cbEx stMissing envR0).err =
        some (PyError.valueError "Accuracy must be a validation metric.") ∧
      (MLPerfCallback.eval_end cbEx stMissing envR0).effects = [] ∧
      (MLPerfCallback.eval_end cbEx stMissing envR0).final = cbEx) :=
  ⟨rfl, by decide, by decide,
    eval_end_missing_metric_error cbEx stMissing envR0 [("TopK", (0 : ℚ))] rfl
      (by decide) (by decide)⟩

/-- C3: when the results file already exists at the post-barrier check,
`init` raises FileExistsError, and on that branch it attaches no file
handler, logs nothing (in particular neither CACHE_CLEAR nor INIT_START),
emits no submission metadata and uploads nothing. -/
theorem init_file_exists_error_branch (cb : CallbackState) (env : HookEnv)
    (h : env.fileExists = true) :
    (MLPerfCallback.init cb env).err =
      some (PyError.fileExistsError (cb.filename ++ " already exists.")) ∧
    (MLPerfCallback.init cb env).final = cb ∧
    (MLPerfCallback.init cb env).effects.all
      (fun e => !isLogged e && !isFileArtifact e &&
        (match e with | Effect.addFileHandler _ => false | _ => true)) = true := by
  refine ⟨by simp [MLPerfCallback.init, h], by simp [MLPerfCallback.init, h], ?_⟩
  by_cases hl : env.localRank = 0 <;>
    simp [MLPerfCallback.init, h, hl, MLPerfCallback.create_submission_folders,
      isLogged, isFileArtifact]

/-- Witness for C3 at a concrete callback and environment. -/
theorem init_file_exists_error_branch_witness :
    envExists.fileExists = true ∧
    ((MLPerfCallback.init cbEx envExists).err =
        some (PyError.fileExistsError (cbEx.filename ++ " already exists.")) ∧
      (MLPerfCallback.init cbEx envExists).final = cbEx ∧
      (MLPerfCallback.init cbEx envExists).effects.all
        (fun e => !isLogged e && !isFileArtifact e &&
          (match e with | Effect.addFileHandler _ => false | _ => true)) = true) :=
  ⟨rfl, init_file_exists_error_branch cbEx envExists rfl⟩

/-- C4: on a non-zero global rank, `epoch_start`, `epoch_end`,
`eval_start` and `eval_end` emit nothing and upload nothing, `init` emits
no submission metadata and uploads nothing, and `fit_start` still emits
INIT_STOP. -/
theorem hooks_rank_zero_gating (cb : CallbackState) (st : TrainerState)
    (env : HookEnv) (h : ¬ env.globalRank = 0) :
    (MLPerfCallback.epoch_start cb st env).effects = [] ∧
    (MLPerfCallback.epoch_end cb st env).effects = [] ∧
    (MLPerfCallback.eval_start cb st env).effects = [] ∧
    (MLPerfCallback.eval_end cb st env).effects = [] ∧
    (MLPerfCallback.init cb env).effects.all
      (fun e => !isSubmissionMeta e && !isFileArtifact e) = true ∧
    Effect.logEvent LogEvent.initStop ∈ (MLPerfCallback.fit_start cb st env).effects := by
  refine ⟨by simp [MLPerfCallback.epoch_start, rank_zero, h],
    by simp [MLPerfCallback.epoch_end, rank_zero, h],
    by simp [MLPerfCallback.eval_start, rank_zero, h],
    by simp [MLPerfCallback.eval_end, rank_zero, h], ?_,
    by simp [MLPerfCallback.fit_start, rank_zero, h]⟩
  by_cases he : env.fileExists <;> by_cases hl : env.localRank = 0 <;>
    cases hc : cb.cache_clear_cmd <;>
    simp [MLPerfCallback.init, rank_zero, h, he, hl, hc,
      MLPerfCallback.create_submission_folders, isSubmissionMeta, isFileArtifact]

/-- C6: `get_system_description` copies the submitter, division and
status arguments into the dictionary, always adds a `system_name` key,
and the system name is the argument verbatim when one is given, else
`[world_size]x[device_name]_composer` where the device name is the
accelerator model name under CUDA and the host processor model name
otherwise, with spaces replaced by underscores. -/
theorem system_description_fields (submitter division status : String)
    (system_name : Option String) (env : SysEnv) :
    List.lookup "submitter"
        (get_system_description submitter division status system_name env)
      = some (DescVal.str submitter) ∧
    List.lookup "division"
        (get_system_description submitter division status system_name env)
      = some (DescVal.str division) ∧
    List.lookup "status"
        (get_system_description submitter division status system_name env)
      = some (DescVal.str status) ∧
    List.lookup "system_name"
        (get_system_description submitter division status system_name env)
      = some (DescVal.str (match system_name with
          | some n => n
          | none =>
            toString env.worldSize ++ "x"
              ++ replaceSpaces (if env.isCuda then env.cudaDeviceName
                  else env.cpuBrandRaw.getD "CPU")
              ++ "_composer")) := by
  cases system_name <;> cases hc : env.isCuda <;>
    simp [get_system_description, descStr, List.lookup, hc]

/-- A concrete system-introspection environment. -/
def sysEnvEx : SysEnv :=
  { worldSize := 8, localWorldSize := 8, isCuda := true, cudaDeviceName := "NVIDIA A100 80GB",
    cpuBrandRaw := some "AMD EPYC 7713", cpuCountPhysical := 64, torchVersion := "1.11.0",
    composerVersion := "0.5.0", cudaVersion := "11.3", pythonVersion := "3.9.12",
    platformSystem := "Linux", platformRelease := "5.4.0" }

/-- C8: with the mlperf logging dependencies available, the constructor
raises ValueError exactly when the benchmark is not `resnet`, the
division is not `open`, or the status is not one of `onprem`, `cloud`,
`preview`; every combination of the remaining arguments is accepted. -/
theorem constructor_validation (avail : Bool) (root : String) (index : ℤ)
    (benchmark : String) (target : ℚ)
    (division metric_name metric_label submitter : String)
    (system_name : Option String) (status : String)
    (ccc : Option (List String)) (env : SysEnv) (ha : avail = true) :
    ((∃ msg, MLPerfCallback.new avail root index benchmark target division metric_name
        metric_label submitter system_name status ccc env
          = Except.error (PyError.valueError msg)) ↔
      (benchmark ≠ "resnet" ∨ division ≠ "open"
        ∨ status ∉ ["onprem", "cloud", "preview"])) ∧
    (benchmark = "resnet" → division = "open" → status ∈ ["onprem", "cloud", "preview"] →
      ∃ cb, MLPerfCallback.new avail root index benchmark target division metric_name
        metric_label submitter system_name status ccc env = Except.ok cb) := by
  subst ha
  by_cases hb : benchmark ∈ BENCHMARKS <;> by_cases hd : division ∈ DIVISIONS <;>
    by_cases hs : status ∈ STATUS <;>
    simp_all [MLPerfCallback.new, BENCHMARKS, DIVISIONS, STATUS]

/-- Witness for C8 at a fully valid argument combination. -/
theorem constructor_validation_witness :
    (true : Bool) = true ∧
    (((∃ msg, MLPerfCallback.new true "sub" 0 "resnet" 1 "open" "Accuracy" "eval"
          "MosaicML" (some "sys") "onprem" none sysEnvEx
            = Except.error (PyError.valueError msg)) ↔
        ("resnet" ≠ "resnet" ∨ "open" ≠ "open"
          ∨ "onprem" ∉ ["onprem", "cloud", "preview"])) ∧
      ("resnet" = "resnet" → "open" = "open" →
        "onprem" ∈ ["onprem", "cloud", "preview"] →
        ∃ cb, MLPerfCallback.new true "sub" 0 "resnet" 1 "open" "Accuracy" "eval"
          "MosaicML" (some "sys") "onprem" none sysEnvEx = Except.ok cb)) :=
  ⟨rfl, constructor_validation true "sub" 0 "resnet" 1 "open" "Accuracy" "eval"
    "MosaicML" (some "sys") "onprem" none sysEnvEx rfl⟩

/-- C5: with a provided system name, the constructor computes the systems
file path `root/systems/[name].json` and the results file path
`root/results/[name]/[benchmark]/result_[index].txt`, and `init` on local
rank zero creates the submission directories, ending with
`root/results/[name]/[benchmark]` and `root/systems`, before writing the
system description JSON. -/
theorem submission_paths_and_folders (avail : Bool) (root : String) (index : ℤ)
    (benchmark : String) (target : ℚ)
    (division metric_name metric_label submitter : String)
    (name status : String) (ccc : Option (List String)) (senv : SysEnv)
    (cb : CallbackState) (env : HookEnv)
    (hmk : MLPerfCallback.new avail root index benchmark target division metric_name
      metric_label submitter (some name) status ccc senv = Except.ok cb)
    (hroot : root ≠ "") (hrootE : strEndsWithSlash root = false)
    (hnameN : name ≠ "") (hnameS : strStartsWithSlash name = false)
    (hnameE : strEndsWithSlash name = false)
    (hl : env.localRank = 0) :
    cb.systems_path = root ++ "/systems/" ++ name ++ ".json" ∧
    cb.filename = root ++ "/results/" ++ name ++ "/" ++ benchmark
      ++ "/result_" ++ toString index ++ ".txt" ∧
    (MLPerfCallback.init cb env).effects.take 6 =
      [Effect.makeDirs root,
       Effect.makeDirs (root ++ "/results"),
       Effect.makeDirs (root ++ "/results/" ++ name),
       Effect.makeDirs (root ++ "/results/" ++ name ++ "/" ++ benchmark),
       Effect.makeDirs (root ++ "/systems"),
       Effect.writeSystemsFile (root ++ "/systems/" ++ name ++ ".json")
         cb.system_desc] := by
  simp only [MLPerfCallback.new] at hmk
  split at hmk
  · exact absurd hmk (by simp)
  split at hmk
  · exact absurd hmk (by simp)
  rename_i hbench
  split at hmk
  · exact absurd hmk (by simp)
  split at hmk
  · exact absurd hmk (by simp)
  have hb : benchmark = "resnet" := by simpa [BENCHMARKS] using hbench
  obtain rfl := Except.ok.inj hmk
  subst hb
  have f1 : ospJoin root "results" = root ++ "/results" := by
    rw [ospJoin_eq root "results" hroot hrootE (by decide)]
    simp only [String.append_assoc]; rfl
  have f4 : ospJoin root "systems" = root ++ "/systems" := by
    rw [ospJoin_eq root "systems" hroot hrootE (by decide)]
    simp only [String.append_assoc]; rfl
  have hne1 : root ++ "/results" ≠ "" := append_ne_empty_right root "/results" (by decide)
  have hes1 : strEndsWithSlash (root ++ "/results") = false := by
    rw [strEndsWithSlash_append root "/results" (by decide)]; decide
  have f2 : ospJoin (root ++ "/results") name = root ++ "/results/" ++ name := by
    rw [ospJoin_eq _ name hne1 hes1 hnameS]
    simp only [String.append_assoc]; rfl
  have hne2 : root ++ "/results/" ++ name ≠ "" := append_ne_empty_right _ name hnameN
  have hes2 : strEndsWithSlash (root ++ "/results/" ++ name) = false := by
    rw [strEndsWithSlash_append _ name hnameN]; exact hnameE
  have f3 : ospJoin (root ++ "/results/" ++ name) "resnet"
      = root ++ "/results/" ++ name ++ "/" ++ "resnet" :=
    ospJoin_eq _ "resnet" hne2 hes2 (by decide)
  have g1 : ospJoin (root ++ "/systems") (name ++ ".json")
      = root ++ "/systems/" ++ name ++ ".json" := by
    rw [ospJoin_eq _ _ (append_ne_empty_right root "/systems" (by decide))
      (by rw [strEndsWithSlash_append root "/systems" (by decide)]; decide)
      (by rw [strStartsWithSlash_append name ".json" hnameN]; exact hnameS)]
    simp only [String.append_assoc]; rfl
  have hne3 : root ++ "/results/" ++ name ++ "/" ++ "resnet" ≠ "" :=
    append_ne_empty_right _ "resnet" (by decide)
  have hes3 : strEndsWithSlash (root ++ "/results/" ++ name ++ "/" ++ "resnet") = false := by
    rw [strEndsWithSlash_append _ "resnet" (by decide)]; decide
  have hsb : strStartsWithSlash ("result_" ++ toString index ++ ".txt") = false := by
    rw [String.append_assoc, strStartsWithSlash_append "result_" _ (by decide)]
    decide
  have g2 : ospJoin (root ++ "/results/" ++ name ++ "/" ++ "resnet")
      ("result_" ++ toString index ++ ".txt")
      = root ++ "/results/" ++ name ++ "/" ++ "resnet"
        ++ "/result_" ++ toString index ++ ".txt" := by
    rw [ospJoin_eq _ _ hne3 hes3 hsb]
    simp only [String.append_assoc]; rfl
  refine ⟨?_, ?_, ?_⟩
  · show ospJoin (ospJoin root "systems") (name ++ ".json") = _
    rw [f4]; exact g1
  · show ospJoin (ospJoin (ospJoin (ospJoin root "results") name) "resnet")
      ("result_" ++ toString index ++ ".txt") = _
    rw [f1, f2, f3]; exact g2
  · unfold MLPerfCallback.init
    by_cases hf : env.fileExists <;>
      simp [hf, hl, MLPerfCallback.create_submission_folders, f1, f2, f3, f4, g1]

/-- The callback state produced by the constructor at the C5 witness
arguments. -/
def cbC5 : CallbackState :=
  (MLPerfCallback.new true "sub" 0 "resnet" 1 "open" "Accuracy" "eval" "MosaicML"
    (some "sys") "onprem" none sysEnvEx).toOption.getD cbEx

/-- Witness for C5 at concrete constructor arguments. -/
theorem submission_paths_and_folders_witness :
    MLPerfCallback.new true "sub" 0 "resnet" 1 "open" "Accuracy" "eval" "MosaicML"
      (some "sys") "onprem" none sysEnvEx = Except.ok cbC5 ∧
    ("sub" : String) ≠ "" ∧ strEndsWithSlash "sub" = false ∧
    ("sys" : String) ≠ "" ∧ strStartsWithSlash "sys" = false ∧
    strEndsWithSlash "sys" = false ∧ envR0.localRank = 0 ∧
    (cbC5.systems_path = "sub" ++ "/systems/" ++ "sys" ++ ".json" ∧
      cbC5.filename = "sub" ++ "/results/" ++ "sys" ++ "/" ++ "resnet"
        ++ "/result_" ++ toString (0 : ℤ) ++ ".txt" ∧
      (MLPerfCallback.init cbC5 envR0).effects.take 6 =
        [Effect.makeDirs "sub",
         Effect.makeDirs ("sub" ++ "/results"),
         Effect.makeDirs ("sub" ++ "/results/" ++ "sys"),
         Effect.makeDirs ("sub" ++ "/results/" ++ "sys" ++ "/" ++ "resnet"),
         Effect.makeDirs ("sub" ++ "/systems"),
         Effect.writeSystemsFile ("sub" ++ "/systems/" ++ "sys" ++ ".json")
           cbC5.system_desc]) :=
  ⟨rfl, by decide, by decide, by decide, by decide, by decide, rfl,
    submission_paths_and_folders true "sub" 0 "resnet" 1 "open" "Accuracy" "eval"
      "MosaicML" "sys" "onprem" none sysEnvEx cbC5 envR0 rfl (by decide) (by decide)
      (by decide) (by decide) (by decide) rfl⟩

/-! ### The success-once gate of `eval_end` over call sequences -/

theorem eval_end_mkEvalState (cb : CallbackState) (a : ℚ) (env : HookEnv)
    (hr : env.globalRank = 0) :
    MLPerfCallback.eval_end cb (mkEvalState cb.metric_label cb.metric_name a) env =
      if cb.target < a ∧ cb.success = false then
        { effects := [Effect.logEvent (LogEvent.evalStop 0),
            Effect.logEvent (LogEvent.evalAccuracy a 0),
            Effect.logEvent (LogEvent.blockStop 0),
            Effect.logEvent (LogEvent.runStop "success"),
            Effect.removeHandler cb.file_handler],
          final := { cb with success := true }, err := none }
      else
        { effects := [Effect.logEvent (LogEvent.evalStop 0),
            Effect.logEvent (LogEvent.evalAccuracy a 0),
            Effect.logEvent (LogEvent.blockStop 0)],
          final := cb, err := none } := by
  by_cases h : cb.target < a ∧ cb.success = false <;>
    simp [MLPerfCallback.eval_end, mkEvalState, rank_zero, hr, h, List.lookup]

theorem runEvalSeq_cons (env : HookEnv) (hr : env.globalRank = 0)
    (cb : CallbackState) (a : ℚ) (t : List ℚ) :
    runEvalSeq env cb ((a :: t).map (mkEvalState cb.metric_label cb.metric_name))
      = if cb.target < a ∧ cb.success = false then
          ([Effect.logEvent (LogEvent.evalStop 0),
            Effect.logEvent (LogEvent.evalAccuracy a 0),
            Effect.logEvent (LogEvent.blockStop 0),
            Effect.logEvent (LogEvent.runStop "success"),
            Effect.removeHandler cb.file_handler] ::
              (runEvalSeq env { cb with success := true }
                (t.map (mkEvalState cb.metric_label cb.metric_name))).1,
           (runEvalSeq env { cb with success := true }
             (t.map (mkEvalState cb.metric_label cb.metric_name))).2)
        else
          ([Effect.logEvent (LogEvent.evalStop 0),
            Effect.logEvent (LogEvent.evalAccuracy a 0),
            Effect.logEvent (LogEvent.blockStop 0)] ::
              (runEvalSeq env cb (t.map (mkEvalState cb.metric_label cb.metric_name))).1,
           (runEvalSeq env cb (t.map (mkEvalState cb.metric_label cb.metric_name))).2) := by
  rw [List.map_cons]
  by_cases h : cb.target < a ∧ cb.success = false
  · rw [if_pos h]
    simp only [runEvalSeq, eval_end_mkEvalState cb a env hr, if_pos h]
  · rw [if_neg h]
    simp only [runEvalSeq, eval_end_mkEvalState cb a env hr, if_neg h]

theorem runEvalSeq_success_true (env : HookEnv) (hr : env.globalRank = 0)
    (cb : CallbackState) (hs : cb.success = true) (accs : List ℚ) :
    runEvalSeq env cb (accs.map (mkEvalState cb.metric_label cb.metric_name))
      = (accs.map (fun a => [Effect.logEvent (LogEvent.evalStop 0),
          Effect.logEvent (LogEvent.evalAccuracy a 0),
          Effect.logEvent (LogEvent.blockStop 0)]), cb) := by
  induction accs with
  | nil => simp [runEvalSeq]
  | cons a t ih =>
    rw [runEvalSeq_cons env hr cb a t, if_neg (by simp [hs])]
    simp [ih]

theorem runStop_not_mem_base_getD (t : List ℚ) (j : ℕ) :
    Effect.logEvent (LogEvent.runStop "success") ∉
      (t.map (fun a => [Effect.logEvent (LogEvent.evalStop 0),
        Effect.logEvent (LogEvent.evalAccuracy a 0),
        Effect.logEvent (LogEvent.blockStop 0)])).getD j [] := by
  by_cases hj : j < t.length
  · rw [List.getD_eq_getElem _ _ (by simpa using hj)]
    simp
  · rw [List.getD_eq_default _ _ (by simpa using hj)]
    simp

theorem runEvalSeq_characterization (env : HookEnv) (hr : env.globalRank = 0) :
    ∀ (accs : List ℚ) (cb : CallbackState), cb.success = false →
    ((∀ i, i < accs.length →
      ((Effect.logEvent (LogEvent.runStop "success")
          ∈ (evalEffects cb env accs).getD i [] ↔
        (cb.target < accs.getD i 0 ∧
          (accs.take i).all (fun a => decide (a ≤ cb.target)) = true)) ∧
       (cb.target < accs.getD i 0 →
        (accs.take i).all (fun a => decide (a ≤ cb.target)) = true →
        Effect.removeHandler cb.file_handler ∈ (evalEffects cb env accs).getD i []))) ∧
     (evalFinal cb env accs).success = accs.any (fun a => decide (cb.target < a))) := by
  intro accs
  induction accs with
  | nil =>
    intro cb hs
    exact ⟨fun i hi => absurd hi (Nat.not_lt_zero i), by simp [evalFinal, runEvalSeq, hs]⟩
  | cons a t ih =>
    intro cb hs
    by_cases h : cb.target < a
    · have hcons := runEvalSeq_cons env hr cb a t
      rw [if_pos ⟨h, hs⟩] at hcons
      simp only [List.map_cons] at hcons
      have htail : runEvalSeq env { cb with success := true }
          (t.map (mkEvalState cb.metric_label cb.metric_name))
          = (t.map (fun x => [Effect.logEvent (LogEvent.evalStop 0),
              Effect.logEvent (LogEvent.evalAccuracy x 0),
              Effect.logEvent (LogEvent.blockStop 0)]), { cb with success := true }) :=
        runEvalSeq_success_true env hr _ rfl t
      refine ⟨?_, ?_⟩
      · intro i hi
        cases i with
        | zero =>
          refine ⟨⟨fun _ => ⟨by simpa using h, by simp⟩, fun _ => ?_⟩, fun _ _ => ?_⟩
          · simp [evalEffects, hcons]
          · simp [evalEffects, hcons]
        | succ j =>
          have heff : (evalEffects cb env (a :: t)).getD (j + 1) []
              = (t.map (fun x => [Effect.logEvent (LogEvent.evalStop 0),
                  Effect.logEvent (LogEvent.evalAccuracy x 0),
                  Effect.logEvent (LogEvent.blockStop 0)])).getD j [] := by
            simp [evalEffects, hcons, htail]
          refine ⟨⟨fun hmem => absurd (heff ▸ hmem) (runStop_not_mem_base_getD t j),
            ?_⟩, ?_⟩
          · rintro ⟨-, hall⟩
            exfalso
            simp [not_le.mpr h] at hall
          · rintro - hall
            exfalso
            simp [not_le.mpr h] at hall
      · have hfin : evalFinal cb env (a :: t) = { cb with success := true } := by
          simp [evalFinal, hcons, htail]
        rw [hfin]
        simp [h]
    · have hcons := runEvalSeq_cons env hr cb a t
      rw [if_neg (by simp [h])] at hcons
      simp only [List.map_cons] at hcons
      obtain ⟨ihAll, ihFin⟩ := ih cb hs
      refine ⟨?_, ?_⟩
      · intro i hi
        cases i with
        | zero =>
          refine ⟨⟨fun hmem => ?_, fun hrhs => ?_⟩, fun h1 _ => ?_⟩
          · simp [evalEffects, hcons] at hmem
          · exact absurd (show cb.target < a by simpa using hrhs.1) h
          · exact absurd (show cb.target < a by simpa using h1) h
        | succ j =>
          have hj : j < t.length := by simpa using hi
          have heff : (evalEffects cb env (a :: t)).getD (j + 1) []
              = (evalEffects cb env t).getD j [] := by
            simp [evalEffects, hcons]
          have htake : ((a :: t).take (j + 1)).all (fun x => decide (x ≤ cb.target))
              = (t.take j).all (fun x => decide (x ≤ cb.target)) := by
            simp [not_lt.mp h]
          obtain ⟨hiff, himp⟩ := ihAll j hj
          refine ⟨?_, ?_⟩
          · rw [heff, List.getD_cons_succ, htake]
            exact hiff
          · rw [heff, List.getD_cons_succ, htake]
            exact himp
      · have hfin : evalFinal cb env (a :: t) = evalFinal cb env t := by
          simp [evalFinal, hcons]
        rw [hfin, ihFin]
        simp [h]

/-- A train dataloader with no batch size and an unsized dataset. -/
def dlNoBatch : DataLoaderObj :=
  { isTorchDataLoader := true, batch_size := none, datasetSized := false, datasetLen := 0 }

/-- A trainer state on which both a TypeError condition (unsized train
dataset) and a ValueError condition (batch size None) of the C2 claim
hold at once. -/
def stBad : TrainerState :=
  { train_dataloader := dlNoBatch, evaluators := [evOk], seed := 0, grad_accum := 1, epoch := 0,
    current_metrics := [] }

/-- C2 counterexample: at `stBad` the train dataset is not Sized, so the
claim asserts a TypeError, yet `fit_start` raises the batch-size
ValueError (the checks run in source order), so no TypeError is raised. -/
theorem fit_start_claim_counterexample :
    stBad.train_dataloader.datasetSized = false ∧
    (MLPerfCallback.fit_start cbEx stBad envR0).err
      = some (PyError.valueError "Batch size is required to be set for dataloader.") ∧
    isTypeErr (MLPerfCallback.fit_start cbEx stBad envR0).err = false := by
  decide

/-- C2 (amended): on global rank zero with a first evaluator present, the
checks run in source order — train dataloader type, eval dataloader type,
batch size, evaluator count, train dataset sized, eval dataset sized —
and the raise is the first failing check's error; the hyperparameter
events are emitted exactly when every check passes. -/
theorem fit_start_checks_in_order (cb : CallbackState) (st : TrainerState)
    (env : HookEnv) (ev0 : Evaluator) (rest : List Evaluator)
    (hr : env.globalRank = 0) (hev : st.evaluators = ev0 :: rest) :
    (st.train_dataloader.isTorchDataLoader = false →
      (MLPerfCallback.fit_start cb st env).err
        = some (PyError.typeError "train dataloader must be a torch dataloader")) ∧
    (st.train_dataloader.isTorchDataLoader = true →
      ev0.dataloader.dataloader.isTorchDataLoader = false →
      (MLPerfCallback.fit_start cb st env).err
        = some (PyError.typeError "eval dataset must be a torch dataloader.")) ∧
    (st.train_dataloader.isTorchDataLoader = true →
      ev0.dataloader.dataloader.isTorchDataLoader = true →
      st.train_dataloader.batch_size = none →
      (MLPerfCallback.fit_start cb st env).err
        = some (PyError.valueError "Batch size is required to be set for dataloader.")) ∧
    (st.train_dataloader.isTorchDataLoader = true →
      ev0.dataloader.dataloader.isTorchDataLoader = true →
      st.train_dataloader.batch_size ≠ none →
      rest ≠ [] →
      (MLPerfCallback.fit_start cb st env).err
        = some (PyError.valueError "Only one evaluator is supported for the MLPerfCallback.")) ∧
    (st.train_dataloader.isTorchDataLoader = true →
      ev0.dataloader.dataloader.isTorchDataLoader = true →
      st.train_dataloader.batch_size ≠ none →
      rest = [] →
      st.train_dataloader.datasetSized = false →
      (MLPerfCallback.fit_start cb st env).err
        = some (PyError.typeError "Train dataset must have __len__ property")) ∧
    (st.train_dataloader.isTorchDataLoader = true →
      ev0.dataloader.dataloader.isTorchDataLoader = true →
      st.train_dataloader.batch_size ≠ none →
      rest = [] →
      st.train_dataloader.datasetSized = true →
      ev0.dataloader.dataloader.datasetSized = false →
      (MLPerfCallback.fit_start cb st env).err
        = some (PyError.typeError "The eval dataset must have __len__ property")) ∧
    (∀ b, st.train_dataloader.isTorchDataLoader = true →
      ev0.dataloader.dataloader.isTorchDataLoader = true →
      st.train_dataloader.batch_size = some b →
      rest = [] →
      st.train_dataloader.datasetSized = true →
      ev0.dataloader.dataloader.datasetSized = true →
      (MLPerfCallback.fit_start cb st env).err = none ∧
      (MLPerfCallback.fit_start cb st env).effects
        = [Effect.logEvent (LogEvent.seed st.seed),
           Effect.logEvent (LogEvent.globalBatchSize (b * env.worldSize)),
           Effect.logEvent (LogEvent.gradAccumSteps st.grad_accum),
           Effect.logEvent (LogEvent.trainSamples st.train_dataloader.datasetLen),
           Effect.logEvent (LogEvent.evalSamples ev0.dataloader.dataloader.datasetLen),
           Effect.logEvent LogEvent.initStop, Effect.barrier,
           Effect.logEvent LogEvent.runStart]) ∧
    ((MLPerfCallback.fit_start cb st env).effects.any isHyperEvent = true →
      st.train_dataloader.isTorchDataLoader = true ∧
      ev0.dataloader.dataloader.isTorchDataLoader = true ∧
      st.train_dataloader.batch_size ≠ none ∧
      rest = [] ∧
      st.train_dataloader.datasetSized = true ∧
      ev0.dataloader.dataloader.datasetSized = true) := by
  obtain ⟨tdl, evs, sd, ga, ep, cm⟩ := st
  obtain ⟨⟨⟨etor, ebs, esized, elen⟩⟩⟩ := ev0
  obtain ⟨tor, bs, sized, len⟩ := tdl
  simp only at hev
  subst hev
  cases tor <;> cases etor <;> cases bs <;> cases sized <;> cases esized <;>
    rcases rest with _ | ⟨r, rs⟩ <;>
    simp [MLPerfCallback.fit_start, rank_zero, hr, isHyperEvent, Nat.succ_lt_succ_iff]

/-- Witness for the amended C2 at an all-checks-pass trainer state. -/
theorem fit_start_checks_in_order_witness :
    envR0.globalRank = 0 ∧ stOk.evaluators = evOk :: [] ∧
    ((stOk.train_dataloader.isTorchDataLoader = false →
      (MLPerfCallback.fit_start cbEx stOk envR0).err
        = some (PyError.typeError "train dataloader must be a torch dataloader")) ∧
    (stOk.train_dataloader.isTorchDataLoader = true →
      evOk.dataloader.dataloader.isTorchDataLoader = false →
      (MLPerfCallback.fit_start cbEx stOk envR0).err
        = some (PyError.typeError "eval dataset must be a torch dataloader.")) ∧
    (stOk.train_dataloader.isTorchDataLoader = true →
      evOk.dataloader.dataloader.isTorchDataLoader = true →
      stOk.train_dataloader.batch_size = none →
      (MLPerfCallback.fit_start cbEx stOk envR0).err
        = some (PyError.valueError "Batch size is required to be set for dataloader.")) ∧
    (stOk.train_dataloader.isTorchDataLoader = true →
      evOk.dataloader.dataloader.isTorchDataLoader = true →
      stOk.train_dataloader.batch_size ≠ none →
      ([] : List Evaluator) ≠ [] →
      (MLPerfCallback.fit_start cbEx stOk envR0).err
        = some (PyError.valueError "Only one evaluator is supported for the MLPerfCallback.")) ∧
    (stOk.train_dataloader.isTorchDataLoader = true →
      evOk.dataloader.dataloader.isTorchDataLoader = true →
      stOk.train_dataloader.batch_size ≠ none →
      ([] : List Evaluator) = [] →
      stOk.train_dataloader.datasetSized = false →
      (MLPerfCallback.fit_start cbEx stOk envR0).err
        = some (PyError.typeError "Train dataset must have __len__ property")) ∧
    (stOk.train_dataloader.isTorchDataLoader = true →
      evOk.dataloader.dataloader.isTorchDataLoader = true →
      stOk.train_dataloader.batch_size ≠ none →
      ([] : List Evaluator) = [] →
      stOk.train_dataloader.datasetSized = true →
      evOk.dataloader.dataloader.datasetSized = false →
      (MLPerfCallback.fit_start cbEx stOk envR0).err
        = some (PyError.typeError "The eval dataset must have __len__ property")) ∧
    (∀ b, stOk.train_dataloader.isTorchDataLoader = true →
      evOk.dataloader.dataloader.isTorchDataLoader = true →
      stOk.train_dataloader.batch_size = some b →
      ([] : List Evaluator) = [] →
      stOk.train_dataloader.datasetSized = true →
      evOk.dataloader.dataloader.datasetSized = true →
      (MLPerfCallback.fit_start cbEx stOk envR0).err = none ∧
      (MLPerfCallback.fit_start cbEx stOk envR0).effects
        = [Effect.logEvent (LogEvent.seed stOk.seed),
           Effect.logEvent (LogEvent.globalBatchSize (b * envR0.worldSize)),
           Effect.logEvent (LogEvent.gradAccumSteps stOk.grad_accum),
           Effect.logEvent (LogEvent.trainSamples stOk.train_dataloader.datasetLen),
           Effect.logEvent
             (LogEvent.evalSamples evOk.dataloader.dataloader.datasetLen),
           Effect.logEvent LogEvent.initStop, Effect.barrier,
           Effect.logEvent LogEvent.runStart]) ∧
    ((MLPerfCallback.fit_start cbEx stOk envR0).effects.any isHyperEvent = true →
      stOk.train_dataloader.isTorchDataLoader = true ∧
      evOk.dataloader.dataloader.isTorchDataLoader = true ∧
      stOk.train_dataloader.batch_size ≠ none ∧
      ([] : List Evaluator) = [] ∧
      stOk.train_dataloader.datasetSized = true ∧
      evOk.dataloader.dataloader.datasetSized = true)) :=
  ⟨rfl, rfl, fit_start_checks_in_order cbEx stOk envR0 evOk [] rfl rfl⟩

/-- Witness for C4 on global rank one. -/
theorem hooks_rank_zero_gating_witness :
    ¬ envR1.globalRank = 0 ∧
    ((MLPerfCallback.epoch_start cbEx stOk envR1).effects = [] ∧
      (MLPerfCallback.epoch_end cbEx stOk envR1).effects = [] ∧
      (MLPerfCallback.eval_start cbEx stOk envR1).effects = [] ∧
      (MLPerfCallback.eval_end cbEx stOk envR1).effects = [] ∧
      (MLPerfCallback.init cbEx envR1).effects.all
        (fun e => !isSubmissionMeta e && !isFileArtifact e) = true ∧
      Effect.logEvent LogEvent.initStop ∈ (MLPerfCallback.fit_start cbEx stOk envR1).effects) :=
  ⟨by decide, hooks_rank_zero_gating cbEx stOk envR1 (by decide)⟩

/-- C1: over any sequence of `eval_end` calls on global rank zero starting
with the success flag down, the RUN_STOP event with status `success` is
emitted exactly at the first call whose fetched accuracy strictly exceeds
the target (and never at a later call, even if the accuracy exceeds the
target again); that call also removes the file handler, and afterwards
the success flag records whether any accuracy exceeded the target. -/
theorem eval_end_emits_run_stop_exactly_once (cb : CallbackState) (env : HookEnv)
    (accs : List ℚ) (i : ℕ) (hr : env.globalRank = 0) (hs : cb.success = false)
    (hi : i < accs.length) :
    ((Effect.logEvent (LogEvent.runStop "success")
        ∈ (evalEffects cb env accs).getD i []) ↔
      (cb.target < accs.getD i 0 ∧
        (accs.take i).all (fun a => decide (a ≤ cb.target)) = true)) ∧
    (cb.target < accs.getD i 0 →
      (accs.take i).all (fun a => decide (a ≤ cb.target)) = true →
      Effect.removeHandler cb.file_handler ∈ (evalEffects cb env accs).getD i []) ∧
    (evalFinal cb env accs).success = accs.any (fun a => decide (cb.target < a)) :=
  ⟨((runEvalSeq_characterization env hr accs cb hs).1 i hi).1,
   ((runEvalSeq_characterization env hr accs cb hs).1 i hi).2,
   (runEvalSeq_characterization env hr accs cb hs).2⟩

/-- Witness for C1: accuracies 0, 2, 3 against target 1; the RUN_STOP
gate fires at index 1, the first strict exceedance. -/
theorem eval_end_emits_run_stop_exactly_once_witness :
    envR0.globalRank = 0 ∧ cbEx.success = false ∧ 1 < ([0, 2, 3] : List ℚ).length ∧
    (((Effect.logEvent (LogEvent.runStop "success")
        ∈ (evalEffects cbEx envR0 [0, 2, 3]).getD 1 []) ↔
      (cbEx.target < ([0, 2, 3] : List ℚ).getD 1 0 ∧
        (([0, 2, 3] : List ℚ).take 1).all (fun a => decide (a ≤ cbEx.target)) = true)) ∧
    (cbEx.target < ([0, 2, 3] : List ℚ).getD 1 0 →
      (([0, 2, 3] : List ℚ).take 1).all (fun a => decide (a ≤ cbEx.target)) = true →
      Effect.removeHandler cbEx.file_handler
        ∈ (evalEffects cbEx envR0 [0, 2, 3]).getD 1 []) ∧
    (evalFinal cbEx envR0 [0, 2, 3]).success
      = ([0, 2, 3] : List ℚ).any (fun a => decide (cbEx.target < a))) :=
  ⟨rfl, rfl, by decide,
    eval_end_emits_run_stop_exactly_once cbEx envR0 [0, 2, 3] 1 rfl rfl (by decide)⟩

end MLPerf
